import Mathlib

/-!
Verification of the easy-thumbnails core (`easy_thumbnails/files.py`).

The development shallowly embeds `files.py` — the option-normalization,
generation-pipeline and deterministic-naming chain of the `Thumbnailer`
facade — into Lean.  Python dictionaries become insertion-ordered
association lists over a small Python value type, exceptions become an
explicit error type threaded through `Except`, and the external
collaborators that `files.py` calls but whose code is not part of the
embedded sources (the engine, the pluggable naming strategies, the alias
registry) become explicit function parameters.  Components of this
repository that the embedded file imports but whose sources are absent
(`easy_thumbnails/options.py`, `easy_thumbnails/utils.py`,
`easy_thumbnails/conf.py`, `easy_thumbnails/exceptions.py`) are modelled
from the specification; each such definition carries a doc comment that
starts with the words `Modelled from the spec`.
-/

namespace EasyThumbnails

/-- Scalar Python values that can sit inside an option tuple (the model
restricts numerics to integers; the float coercion in the size check is
exact on these). -/
inductive PyScalar where
  | pyStr (s : String)
  | pyInt (n : Int)
  | pyBool (b : Bool)
  | pyNone
deriving DecidableEq

/-- Python values an option can map to: scalars plus flat tuples of
scalars (nested containers do not occur in the embedded code paths). -/
inductive PyVal where
  | pyStr (s : String)
  | pyInt (n : Int)
  | pyBool (b : Bool)
  | pyNone
  | pyTuple (elems : List PyScalar)
deriving DecidableEq

/-- The Python exceptions raised by the embedded code.
`easyThumbnailsError` is the class raised by the size sanity check at
files.py:178; `invalidImageFormatError` the one raised at files.py:185. -/
inductive PyErr where
  | easyThumbnailsError (msg : String)
  | invalidImageFormatError (msg : String)
  | keyError (key : String)
  | valueError (msg : String)
  | typeError (msg : String)
  | indexError (msg : String)
deriving DecidableEq

/-- The Python value of the `thumbnail_preserve_extensions` setting.  The
code at files.py:212 discriminates on it with `is True` and
`isinstance(-, (list, tuple))`, so the embedding keeps the value kinds
apart; `pySet` represents a Python set (which the isinstance check does
not match), `pyFalsy` any other non-`True` scalar such as `False` or
`None`. -/
inductive PreserveExt where
  | pyTrue
  | pyFalsy
  | pyList (l : List String)
  | pyTupleP (l : List String)
  | pySet (l : List String)
deriving DecidableEq

/-- Membership test of a key in a Python dict modelled as an association
list (`key in d`). -/
def containsKey (d : List (String × PyVal)) (k : String) : Bool :=
  d.any (fun p => p.1 = k)

/-- Lookup of a key in a Python dict modelled as an association list
(`d[key]`, first matching entry). -/
def lookupKey (d : List (String × PyVal)) (k : String) : Option PyVal :=
  (d.find? (fun p => p.1 = k)).map Prod.snd

/-- Dict item assignment `d[k] = v`: replaces the value of an existing
key in place, otherwise appends the pair at the end (insertion order).
On lists whose keys are distinct — the dict invariant — replacing every
matching entry coincides with replacing the unique one. -/
def setKey (d : List (String × PyVal)) (k : String) (v : PyVal) :
    List (String × PyVal) :=
  if containsKey d k then d.map (fun p => if p.1 = k then (k, v) else p)
  else d ++ [(k, v)]

/-- Dict `d.setdefault(k, v)`: appends the pair only when the key is
absent. -/
def setDefaultKey (d : List (String × PyVal)) (k : String) (v : PyVal) :
    List (String × PyVal) :=
  if containsKey d k then d else d ++ [(k, v)]

/-- Modelled from the spec: the `ThumbnailOptions` dict subclass of
`easy_thumbnails/options.py`, which is not under src/.  It carries the
option mapping of one thumbnail request (spec section 3, OptionSet). -/
structure ThumbnailOptions where
  entries : List (String × PyVal)
deriving DecidableEq

/-- Modelled from the spec: the `ThumbnailOptions` constructor
(`easy_thumbnails/options.py` is not under src/).  Construction copies
the given mapping and fills in a default for the `subsampling` key
(`generate_thumbnail` reads `thumbnail_options['subsampling']` at
files.py:194, so the constructor must supply it when the caller does
not; the spec lists `subsampling mode` among the recognized optional
keys). -/
def ThumbnailOptions.ofArgs (d : List (String × PyVal)) : ThumbnailOptions :=
  ⟨setDefaultKey d "subsampling" (.pyInt 2)⟩

/-- The argument a caller passes for the `thumbnail_options` parameter:
a plain dict, an already-normalized `ThumbnailOptions` instance, or
Python `None` (the three shapes `get_options` at files.py:144
discriminates between). -/
inductive OptionsArg where
  | raw (d : List (String × PyVal))
  | normalized (t : ThumbnailOptions)
  | pyNoneArg
deriving DecidableEq

/-- Modelled from the spec: the process-wide configuration surface
(spec section 6) that `Thumbnailer.__init__` copies instance defaults
from (`easy_thumbnails/conf.py` is not under src/).  The field holding
the filename prefix string is named `THUMBNAIL_PREF` here; in the
source it is the prefix setting. -/
structure Settings where
  THUMBNAIL_BASEDIR : String
  THUMBNAIL_SUBDIR : String
  THUMBNAIL_PREF : String
  THUMBNAIL_QUALITY : Int
  THUMBNAIL_EXTENSION : String
  THUMBNAIL_PRESERVE_EXTENSIONS : PreserveExt
  THUMBNAIL_TRANSPARENCY_EXTENSION : String
  THUMBNAIL_CHECK_CACHE_MISS : Bool
deriving DecidableEq

/-- The `Thumbnailer` facade state (files.py:92): per-source
configuration set by `__init__`.  Field names follow the source
attributes, except that the source's prefix attribute is called
`thumbnail_pref` here.  File-like objects are identified by a numeric
tag (`none` meaning the Python value `None`); the storage references,
unused by the embedded code paths, are omitted.  The pluggable naming
strategy (`thumbnail_namer`) is passed separately to the operations
that consult it, since it is a function value. -/
structure Thumbnailer where
  file : Option Nat
  name : String
  remote_source : Bool
  alias_target : Option String
  generate : Bool
  thumbnail_basedir : String
  thumbnail_subdir : String
  thumbnail_pref : String
  thumbnail_quality : Int
  thumbnail_extension : String
  thumbnail_preserve_extensions : PreserveExt
  thumbnail_transparency_extension : String
  thumbnail_check_cache_miss : Bool
deriving DecidableEq

/-- The `Thumbnailer.__init__` constructor (files.py:110): records the
file, name and remote flag and fills every per-instance setting from
the process-wide configuration. -/
def Thumbnailer.init (settings : Settings) (file : Option Nat)
    (name : String) (remote_source : Bool) : Thumbnailer :=
  { file := file
    name := name
    remote_source := remote_source
    alias_target := none
    generate := true
    thumbnail_basedir := settings.THUMBNAIL_BASEDIR
    thumbnail_subdir := settings.THUMBNAIL_SUBDIR
    thumbnail_pref := settings.THUMBNAIL_PREF
    thumbnail_quality := settings.THUMBNAIL_QUALITY
    thumbnail_extension := settings.THUMBNAIL_EXTENSION
    thumbnail_preserve_extensions := settings.THUMBNAIL_PRESERVE_EXTENSIONS
    thumbnail_transparency_extension := settings.THUMBNAIL_TRANSPARENCY_EXTENSION
    thumbnail_check_cache_miss := settings.THUMBNAIL_CHECK_CACHE_MISS }

/-- Modelled from the spec: a `DecodedImage` (spec section 3) — an
in-memory pixel buffer identified by a tag, plus its alpha-presence
flag.  The pixel contents are irrelevant to the embedded control flow. -/
structure Image where
  imageId : Nat
  transparent : Bool
deriving DecidableEq

/-- Modelled from the spec: `utils.is_transparent`
(`easy_thumbnails/utils.py` is not under src/) — reports the decoded
image's alpha-presence flag. -/
def is_transparent (img : Image) : Bool :=
  img.transparent

/-- The unsaved `ThumbnailFile` returned by `generate_thumbnail`: the
processed image together with the derived filename and the encoding
parameters handed to `engine.save_pil_image` (files.py:196). -/
structure ThumbnailFile where
  image : Image
  filename : String
  quality : PyVal
  subsampling : PyVal
deriving DecidableEq

/-- The engine collaborator (`easy_thumbnails/engine.py`, external to
the embedded file): source generation over the registered generator
chain, the processor chain, and final encoding.  `generate_source_image`
receives the file, the options and the fail-silently flag and returns
`none` when no generator produced an image. -/
structure Engine where
  generate_source_image : Option Nat → ThumbnailOptions → Bool → Option Image
  process_image : Image → ThumbnailOptions → Image
  save_pil_image : Image → String → PyVal → PyVal → ThumbnailFile

/-- A pluggable naming strategy (files.py:232): called with the
thumbnailer, the source filename, the chosen extension, the full option
set and the prepared token sequence, it returns a bare filename. -/
abbrev Namer :=
  Thumbnailer → String → String → ThumbnailOptions → List String → String

/-- The alias registry lookup `aliases.get(alias, target=...)`
(`easy_thumbnails/alias.py`, external to the embedded file): returns the
option dict registered for the alias against the target, or `none`. -/
abbrev AliasGet := String → Option String → Option (List (String × PyVal))

/-- Python `float(dim)` coercion attempted by the size sanity check
(files.py:172): numbers and numeric strings coerce, `None` and other
values raise `TypeError`/`ValueError` and are skipped by the caller.
The model restricts numerics to integers, on which float comparison
with zero is exact. -/
def PyScalar.toFloatInt : PyScalar → Option Int
  | .pyInt n => some n
  | .pyBool b => some (if b then 1 else 0)
  | .pyStr s => s.toInt?
  | .pyNone => none

/-- The size scan of files.py:169-175: folds `min`/`max` over the
coercible dimensions starting from `(0, 0)`, skipping dimensions whose
coercion fails. -/
def sizeScan (dims : List PyScalar) : Int × Int :=
  dims.foldl
    (fun acc dim =>
      match dim.toFloatInt with
      | none => acc
      | some x => (min acc.1 x, max acc.2 x))
    (0, 0)

/-- The failure condition of the size sanity check (files.py:176): the
maximum over the coercible dimensions is 0 or the minimum is below 0. -/
def sizeInvalid (dims : List PyScalar) : Prop :=
  (sizeScan dims).2 = 0 ∨ (sizeScan dims).1 < 0

instance (dims : List PyScalar) : Decidable (sizeInvalid dims) :=
  inferInstanceAs (Decidable (_ ∨ _))

/-- Python `str()` of a scalar, as used by `str.format` when building
error messages. -/
def PyScalar.pyText : PyScalar → String
  | .pyStr s => s
  | .pyInt n => toString n
  | .pyBool b => if b then "True" else "False"
  | .pyNone => "None"

/-- The message of files.py:177-178: the template
`The source image has an invalid size ({0}x{1})` formatted with the
first two entries of the offending size tuple. -/
def sizeErrorMsg (d0 d1 : PyScalar) : String :=
  "The source image has an invalid size (" ++ d0.pyText ++ "x" ++ d1.pyText ++ ")"

/-- Ordering of option entries by key, used to canonicalize the token
order of `prepared_options`. -/
def optKeyLE (a b : String × PyVal) : Prop :=
  a.1 ≤ b.1

instance : DecidableRel optKeyLE :=
  fun a b => inferInstanceAs (Decidable (a.1 ≤ b.1))

instance : IsTotal (String × PyVal) optKeyLE :=
  ⟨fun a b => le_total a.1 b.1⟩

instance : IsTrans (String × PyVal) optKeyLE :=
  ⟨fun _ _ _ h1 h2 => le_trans h1 h2⟩

/-- Sorts the option entries into the fixed, option-key-driven order. -/
def sortByKey (d : List (String × PyVal)) : List (String × PyVal) :=
  List.insertionSort optKeyLE d

/-- Canonical text of an option value inside a prepared token: numbers
as canonical text, tuples joined with commas. -/
def PyVal.tokenText : PyVal → String
  | .pyStr s => s
  | .pyInt n => toString n
  | .pyBool b => if b then "True" else "False"
  | .pyNone => "None"
  | .pyTuple l => String.intercalate "," (l.map PyScalar.pyText)

/-- Modelled from the spec: `ThumbnailOptions.prepared_options`
(`easy_thumbnails/options.py` is not under src/).  Per spec section 4.1
it emits tokens in a fixed, option-key-driven order — not the raw
insertion order — and represents each value deterministically: boolean
options become presence/absence flags (the key alone when `True`,
nothing when `False` or `None`), every other value becomes a
`key-value` token with its canonical text; the reserved `ALIAS`
traceability tag carries no semantics and produces no token. -/
def ThumbnailOptions.prepared_options (t : ThumbnailOptions) : List String :=
  (sortByKey t.entries).foldr
    (fun kv acc =>
      if kv.1 = "ALIAS" then acc
      else
        match kv.2 with
        | .pyBool true => kv.1 :: acc
        | .pyBool false => acc
        | .pyNone => acc
        | v => (kv.1 ++ "-" ++ v.tokenText) :: acc)
    []

/-- Index just past the last `/` of the character list (0 when no
slash occurs), as in `p.rfind("/") + 1`. -/
def lastSlashSucc (cs : List Char) : Nat :=
  match ((List.range cs.length).filter fun i => cs.get? i == some '/').getLast? with
  | none => 0
  | some j => j + 1

/-- Drops trailing `/` characters. -/
def stripTrailingSlashes (cs : List Char) : List Char :=
  (cs.reverse.dropWhile fun c => c = '/').reverse

/-- Posix `os.path.split`: splits after the last `/`; the head keeps
its trailing slashes only when it consists solely of slashes. -/
def ospathSplit (p : String) : String × String :=
  let cs := p.data
  let i := lastSlashSucc cs
  let head := cs.take i
  let tail := cs.drop i
  let headStripped := if head.all (fun c => c = '/') then head else stripTrailingSlashes head
  (String.mk headStripped, String.mk tail)

/-- Posix `os.path.splitext` restricted to a bare filename (no `/`,
which holds for the tail of `ospathSplit`): the extension starts at the
last dot, provided some earlier character of the name is not a dot —
leading dots never open an extension. -/
def splitextChars (cs : List Char) : List Char × List Char :=
  match ((List.range cs.length).filter fun i => cs.get? i == some '.').getLast? with
  | none => (cs, [])
  | some i =>
      if (cs.take i).any (fun c => c ≠ '.') then (cs.take i, cs.drop i)
      else (cs, [])

/-- String version of `splitextChars`. -/
def ospathSplitext (p : String) : String × String :=
  let r := splitextChars p.data
  (String.mk r.1, String.mk r.2)

/-- One step of posix `os.path.join`: an absolute component restarts
the path, otherwise a `/` separates unless one is already present. -/
def joinOne (path b : String) : String :=
  if b.startsWith "/" then b
  else if path = "" ∨ path.endsWith "/" then path ++ b
  else path ++ "/" ++ b

/-- Posix `os.path.join` over a component list. -/
def ospathJoin (parts : List String) : String :=
  match parts with
  | [] => ""
  | p :: rest => rest.foldl joinOne p

/-- Python percent-formatting of the basedir/subdir template with the
mapping `{opts: opts_text}` (files.py:224-226), restricted to the
`%(opts)s` placeholder — the only conversion those templates use. -/
def percentFmtOpts (template opts_text : String) : String :=
  template.replace "%(opts)s" opts_text

/-- The preservation test of files.py:212-213: Python parses the
condition as `(preserve_extensions is True) or
(isinstance(preserve_extensions, (list, tuple)) and source_extension in
preserve_extensions)`; a set never matches the isinstance check. -/
def preserveExtCond : PreserveExt → String → Bool
  | .pyTrue, _ => true
  | .pyList l, ext => l.contains ext
  | .pyTupleP l, ext => l.contains ext
  | .pyFalsy, _ => false
  | .pySet _, _ => false

/-- The extension selection of files.py:211-219: keep the source
extension when the preservation test holds, else the transparency
extension when the image is transparent, else the configured default
extension; an empty choice falls back to `jpg`. -/
def Thumbnailer.chosen_extension (self : Thumbnailer) (source_extension : String)
    (transparent : Bool) : String :=
  let extension :=
    if preserveExtCond self.thumbnail_preserve_extensions source_extension then
      source_extension
    else if transparent then self.thumbnail_transparency_extension
    else self.thumbnail_extension
  if extension = "" then "jpg" else extension

/-- `Thumbnailer.get_options` (files.py:144-157): an already-normalized
`ThumbnailOptions` instance is returned as is; a plain dict is wrapped
by the `ThumbnailOptions` constructor and, when the caller's dict has
no `quality` key, the thumbnailer's configured quality is written into
the result; Python `None` reaches the membership test `'quality' not in
thumbnail_options` and raises `TypeError`. -/
def Thumbnailer.get_options (self : Thumbnailer) (thumbnail_options : OptionsArg) :
    Except PyErr ThumbnailOptions :=
  match thumbnail_options with
  | .normalized t => .ok t
  | .raw d =>
      let opts := ThumbnailOptions.ofArgs d
      if containsKey d "quality" then .ok opts
      else .ok ⟨setKey opts.entries "quality" (.pyInt self.thumbnail_quality)⟩
  | .pyNoneArg => .error (.typeError "argument of type 'NoneType' is not iterable")

/-- `Thumbnailer.get_thumbnail_name` (files.py:202-241): normalizes the
options, splits the source name, selects the extension, prepares the
option tokens and joins them with `_`, substitutes the opts text into
the basedir and subdir templates, lets the naming strategy build the
bare filename, prepends the configured prefix string, and joins
basedir, source directory, subdir and filename into the path. -/
def Thumbnailer.get_thumbnail_name (self : Thumbnailer) (namer : Namer)
    (arg : OptionsArg) (transparent : Bool) : Except PyErr String :=
  match self.get_options arg with
  | .error err => .error err
  | .ok thumbnail_options =>
      let sp := ospathSplit self.name
      let path := sp.1
      let source_filename := sp.2
      let source_extension := ((ospathSplitext source_filename).2.drop 1).toLower
      let extension := self.chosen_extension source_extension transparent
      let prepared_opts := thumbnail_options.prepared_options
      let opts_text := String.intercalate "_" prepared_opts
      let basedir := percentFmtOpts self.thumbnail_basedir opts_text
      let subdir := percentFmtOpts self.thumbnail_subdir opts_text
      let filename0 := namer self source_filename extension thumbnail_options prepared_opts
      let filename := self.thumbnail_pref ++ filename0
      .ok (ospathJoin [basedir, path, subdir, filename])

/-- `Thumbnailer.generate_thumbnail` (files.py:159-200): normalizes the
options, reads and sanity-checks the size, asks the engine for a source
image (failing with `InvalidImageFormatError` naming the source when no
generator produced one), runs the processor chain, derives the filename
using the processed image's transparency, and encodes with the options'
quality and subsampling. -/
def Thumbnailer.generate_thumbnail (self : Thumbnailer) (e : Engine) (namer : Namer)
    (arg : OptionsArg) (silent_template_exception : Bool) :
    Except PyErr ThumbnailFile :=
  match self.get_options arg with
  | .error err => .error err
  | .ok thumbnail_options =>
      match lookupKey thumbnail_options.entries "size" with
      | none => .error (.keyError "size")
      | some sizeVal =>
          match sizeVal with
          | .pyTuple dims =>
              let scan := sizeScan dims
              if scan.2 = 0 ∨ scan.1 < 0 then
                match dims with
                | d0 :: d1 :: _ => .error (.easyThumbnailsError (sizeErrorMsg d0 d1))
                | _ => .error (.indexError "Replacement index 1 out of range for positional args tuple")
              else
                match e.generate_source_image self.file thumbnail_options silent_template_exception with
                | none =>
                    .error (.invalidImageFormatError
                      ("The source file does not appear to be an image: '" ++ self.name ++ "'"))
                | some image =>
                    let thumbnail_image := e.process_image image thumbnail_options
                    match self.get_thumbnail_name namer (.normalized thumbnail_options)
                        (is_transparent thumbnail_image) with
                    | .error err => .error err
                    | .ok filename =>
                        match lookupKey thumbnail_options.entries "quality",
                            lookupKey thumbnail_options.entries "subsampling" with
                        | some quality, some subsampling =>
                            .ok (e.save_pil_image thumbnail_image filename quality subsampling)
                        | none, _ => .error (.keyError "quality")
                        | some _, none => .error (.keyError "subsampling")
          | _ => .error (.typeError "size value outside the tuple shapes of the model")

/-- `Thumbnailer.get_thumbnail` (files.py:243-266): normalizes the
options and generates a fresh thumbnail; the `save` and `generate`
parameters are accepted but unused by this code path, and no cache is
consulted or written. -/
def Thumbnailer.get_thumbnail (self : Thumbnailer) (e : Engine) (namer : Namer)
    (arg : OptionsArg) (save : Bool) (generate : Option Bool)
    (silent_template_exception : Bool) : Except PyErr ThumbnailFile :=
  match self.get_options arg with
  | .error err => .error err
  | .ok thumbnail_options =>
      self.generate_thumbnail e namer (.normalized thumbnail_options)
        silent_template_exception

/-- `Thumbnailer.__getitem__` (files.py:133-142): resolves the alias
against the thumbnailer's target, raises `KeyError(alias)` when the
resolution yields `None` or an empty dict, and otherwise tags the
options with the alias under the `ALIAS` key and delegates to
`get_thumbnail` with `silent_template_exception=True`. -/
def Thumbnailer.getitem (self : Thumbnailer) (e : Engine) (namer : Namer)
    (aliasesGet : AliasGet) (aliasName : String) : Except PyErr ThumbnailFile :=
  match aliasesGet aliasName self.alias_target with
  | none => .error (.keyError aliasName)
  | some options =>
      if options = [] then .error (.keyError aliasName)
      else
        self.get_thumbnail e namer (.raw (setKey options "ALIAS" (.pyStr aliasName)))
          true none true

/-- The argument shapes `get_thumbnailer` (files.py:13) discriminates
between: a `Thumbnailer` instance (possibly also carrying an
`easy_thumbnails_thumbnailer` attribute), a non-`Thumbnailer` object
exposing that attribute, a string, a file-like object, or `None`. -/
inductive GTArg where
  | thumb (t : Thumbnailer) (attr : Option Thumbnailer)
  | objWithAttr (attr : Thumbnailer)
  | str (s : String)
  | fileLike (fid : Nat)
  | noneObj
deriving DecidableEq

/-- The `ValueError` message of files.py:53-55. -/
def gtValueErrorMsg : String :=
  "If object is not a FieldFile or Thumbnailer instance, the relative name must be provided"

/-- `get_thumbnailer` (files.py:13-59): an `easy_thumbnails_thumbnailer`
attribute is returned when present (this check precedes the
`Thumbnailer` isinstance check); a `Thumbnailer` instance is returned
as is; a string becomes the relative name with the original
`relative_name` argument discarded; any remaining falsy relative name
raises `ValueError`; otherwise a new `Thumbnailer` is built whose
`remote_source` flag records whether a file object was supplied. -/
def get_thumbnailer (settings : Settings) (obj : GTArg)
    (relative_name : Option String) : Except PyErr Thumbnailer :=
  match obj with
  | .thumb _ (some attr) => .ok attr
  | .thumb t none => .ok t
  | .objWithAttr attr => .ok attr
  | .str s =>
      if s = "" then .error (.valueError gtValueErrorMsg)
      else .ok (Thumbnailer.init settings none s false)
  | .fileLike fid =>
      match relative_name with
      | none => .error (.valueError gtValueErrorMsg)
      | some r =>
          if r = "" then .error (.valueError gtValueErrorMsg)
          else .ok (Thumbnailer.init settings (some fid) r true)
  | .noneObj =>
      match relative_name with
      | none => .error (.valueError gtValueErrorMsg)
      | some r =>
          if r = "" then .error (.valueError gtValueErrorMsg)
          else .ok (Thumbnailer.init settings none r false)

/-- The entries `get_options` produces from a plain dict, written out as
a function of the dict. -/
def normEntries (self : Thumbnailer) (d : List (String × PyVal)) :
    List (String × PyVal) :=
  if containsKey d "quality" then setDefaultKey d "subsampling" (.pyInt 2)
  else setKey (setDefaultKey d "subsampling" (.pyInt 2)) "quality" (.pyInt self.thumbnail_quality)

theorem get_options_raw_eq (self : Thumbnailer) (d : List (String × PyVal)) :
    self.get_options (.raw d) = .ok ⟨normEntries self d⟩ := by
  simp only [Thumbnailer.get_options, ThumbnailOptions.ofArgs, normEntries]
  split <;> rfl

theorem containsKey_perm {d1 d2 : List (String × PyVal)} (h : d1.Perm d2)
    (k : String) : containsKey d1 k = containsKey d2 k := by
  unfold containsKey
  cases h1 : d1.any (fun p => p.1 = k) with
  | true =>
      rw [List.any_eq_true] at h1
      obtain ⟨x, hx, hfx⟩ := h1
      exact (List.any_eq_true.mpr ⟨x, h.mem_iff.mp hx, hfx⟩).symm
  | false =>
      rw [List.any_eq_false] at h1
      exact (List.any_eq_false.mpr (fun x hx => h1 x (h.mem_iff.mpr hx))).symm

theorem setDefaultKey_perm {d1 d2 : List (String × PyVal)} (h : d1.Perm d2)
    (k : String) (v : PyVal) : (setDefaultKey d1 k v).Perm (setDefaultKey d2 k v) := by
  unfold setDefaultKey
  rw [containsKey_perm h]
  split
  · exact h
  · exact h.append_right [(k, v)]

theorem setKey_perm {d1 d2 : List (String × PyVal)} (h : d1.Perm d2)
    (k : String) (v : PyVal) : (setKey d1 k v).Perm (setKey d2 k v) := by
  unfold setKey
  rw [containsKey_perm h]
  split
  · exact h.map _
  · exact h.append_right [(k, v)]

theorem not_containsKey_notMem {d : List (String × PyVal)} {k : String}
    (h : containsKey d k = false) : k ∉ d.map Prod.fst := by
  intro hk
  rw [List.mem_map] at hk
  obtain ⟨p, hp, hpk⟩ := hk
  rw [containsKey, List.any_eq_false] at h
  exact h p hp (by simp [hpk])

theorem keys_setDefaultKey_nodup {d : List (String × PyVal)} {k : String} {v : PyVal}
    (h : (d.map Prod.fst).Nodup) : ((setDefaultKey d k v).map Prod.fst).Nodup := by
  unfold setDefaultKey
  split
  · exact h
  · rename_i hc
    rw [List.map_append]
    refine List.Nodup.append h (List.nodup_singleton k) ?hd
    intro a ha hb
    simp only [List.map_cons, List.map_nil, List.mem_singleton] at hb
    subst hb
    exact not_containsKey_notMem (by simpa using hc) ha

theorem keys_setKey_map {d : List (String × PyVal)} {k : String} {v : PyVal} :
    (d.map (fun p => if p.1 = k then (k, v) else p)).map Prod.fst = d.map Prod.fst := by
  rw [List.map_map]
  refine List.map_congr_left ?h
  intro p _
  by_cases hp : p.1 = k
  · simp [hp]
  · simp [hp]

theorem keys_setKey_nodup {d : List (String × PyVal)} {k : String} {v : PyVal}
    (h : (d.map Prod.fst).Nodup) : ((setKey d k v).map Prod.fst).Nodup := by
  unfold setKey
  split
  · rw [keys_setKey_map]
    exact h
  · rename_i hc
    rw [List.map_append]
    refine List.Nodup.append h (List.nodup_singleton k) ?hd
    intro a ha hb
    simp only [List.map_cons, List.map_nil, List.mem_singleton] at hb
    subst hb
    exact not_containsKey_notMem (by simpa using hc) ha

theorem normEntries_perm {d1 d2 : List (String × PyVal)} (self : Thumbnailer)
    (h : d1.Perm d2) : (normEntries self d1).Perm (normEntries self d2) := by
  unfold normEntries
  rw [containsKey_perm h]
  split
  · exact setDefaultKey_perm h _ _
  · exact setKey_perm (setDefaultKey_perm h _ _) _ _

theorem normEntries_nodup {d : List (String × PyVal)} (self : Thumbnailer)
    (h : (d.map Prod.fst).Nodup) : ((normEntries self d).map Prod.fst).Nodup := by
  unfold normEntries
  split
  · exact keys_setDefaultKey_nodup h
  · exact keys_setKey_nodup (keys_setDefaultKey_nodup h)

theorem sortByKey_canonical {d1 d2 : List (String × PyVal)} (hp : d1.Perm d2)
    (hnd : (d1.map Prod.fst).Nodup) : sortByKey d1 = sortByKey d2 := by
  haveI : IsAntisymm (String × PyVal) (fun a b : String × PyVal => a.1 < b.1) :=
    ⟨fun a b h1 h2 => absurd h2 (lt_asymm h1)⟩
  have p1 : (sortByKey d1).Perm d1 := List.perm_insertionSort optKeyLE d1
  have p2 : (sortByKey d2).Perm d2 := List.perm_insertionSort optKeyLE d2
  have hp12 : (sortByKey d1).Perm (sortByKey d2) := (p1.trans hp).trans p2.symm
  have s1 : List.Sorted optKeyLE (sortByKey d1) := List.sorted_insertionSort optKeyLE d1
  have s2 : List.Sorted optKeyLE (sortByKey d2) := List.sorted_insertionSort optKeyLE d2
  have nd1 : ((sortByKey d1).map Prod.fst).Nodup := ((p1.map Prod.fst).nodup_iff).mpr hnd
  have nd2 : ((sortByKey d2).map Prod.fst).Nodup :=
    ((p2.map Prod.fst).nodup_iff).mpr (((hp.map Prod.fst).nodup_iff).mp hnd)
  have pw1 : (sortByKey d1).Pairwise (fun a b => a.1 ≠ b.1) := by
    rw [List.Nodup, List.pairwise_map] at nd1
    exact nd1
  have pw2 : (sortByKey d2).Pairwise (fun a b => a.1 ≠ b.1) := by
    rw [List.Nodup, List.pairwise_map] at nd2
    exact nd2
  have st1 : List.Sorted (fun a b : String × PyVal => a.1 < b.1) (sortByKey d1) :=
    (s1.and pw1).imp (fun h => lt_of_le_of_ne h.1 h.2)
  have st2 : List.Sorted (fun a b : String × PyVal => a.1 < b.1) (sortByKey d2) :=
    (s2.and pw2).imp (fun h => lt_of_le_of_ne h.1 h.2)
  exact List.eq_of_perm_of_sorted hp12 st1 st2

theorem prepared_options_perm {t1 t2 : ThumbnailOptions}
    (hp : t1.entries.Perm t2.entries) (hnd : (t1.entries.map Prod.fst).Nodup) :
    t1.prepared_options = t2.prepared_options := by
  unfold ThumbnailOptions.prepared_options
  rw [sortByKey_canonical hp hnd]

theorem lookupKey_append (d1 d2 : List (String × PyVal)) (k : String) :
    lookupKey (d1 ++ d2) k = ((lookupKey d1 k).or (lookupKey d2 k)) := by
  unfold lookupKey
  rw [List.find?_append]
  cases d1.find? (fun p => p.1 = k) <;> rfl

theorem lookupKey_setDefaultKey_ne {k k2 : String} (d : List (String × PyVal))
    (v : PyVal) (h : k ≠ k2) : lookupKey (setDefaultKey d k2 v) k = lookupKey d k := by
  unfold setDefaultKey
  split
  · rfl
  · rw [lookupKey_append]
    have h2 : lookupKey [(k2, v)] k = none := by
      unfold lookupKey
      simp [List.find?, h.symm]
    rw [h2]
    cases lookupKey d k <;> rfl

theorem find?_mapUpdate_ne {k k2 : String} (v : PyVal) (d : List (String × PyVal))
    (h : k ≠ k2) :
    ((d.map (fun p => if p.1 = k2 then (k2, v) else p)).find? (fun p => p.1 = k))
      = d.find? (fun p => p.1 = k) := by
  induction d with
  | nil => rfl
  | cons q rest ih =>
      rw [List.map_cons]
      by_cases hq : q.1 = k2
      · rw [if_pos hq]
        rw [List.find?_cons_of_neg _ (by simp [Ne.symm h]),
          List.find?_cons_of_neg _ (by simp [hq, Ne.symm h])]
        exact ih
      · rw [if_neg hq]
        by_cases hk : q.1 = k
        · rw [List.find?_cons_of_pos _ (by simp [hk]), List.find?_cons_of_pos _ (by simp [hk])]
        · rw [List.find?_cons_of_neg _ (by simp [hk]), List.find?_cons_of_neg _ (by simp [hk])]
          exact ih

theorem lookupKey_setKey_ne {k k2 : String} (d : List (String × PyVal))
    (v : PyVal) (h : k ≠ k2) : lookupKey (setKey d k2 v) k = lookupKey d k := by
  unfold setKey
  split
  · unfold lookupKey
    rw [find?_mapUpdate_ne v d h]
  · rw [lookupKey_append]
    have h2 : lookupKey [(k2, v)] k = none := by
      unfold lookupKey
      simp [List.find?, h.symm]
    rw [h2]
    cases lookupKey d k <;> rfl

theorem lookupKey_normEntries_ne (self : Thumbnailer) (d : List (String × PyVal))
    {k : String} (h1 : k ≠ "subsampling") (h2 : k ≠ "quality") :
    lookupKey (normEntries self d) k = lookupKey d k := by
  unfold normEntries
  split
  · exact lookupKey_setDefaultKey_ne d _ h1
  · rw [lookupKey_setKey_ne _ _ h2]
    exact lookupKey_setDefaultKey_ne d _ h1

theorem containsKey_eq_isSome (d : List (String × PyVal)) (k : String) :
    containsKey d k = (lookupKey d k).isSome := by
  induction d with
  | nil => rfl
  | cons q rest ih =>
      by_cases hq : q.1 = k
      · have h2 : lookupKey (q :: rest) k = some q.2 := by
          unfold lookupKey
          rw [List.find?_cons_of_pos _ (by simpa using hq)]
          rfl
        have h1 : containsKey (q :: rest) k = true := by
          simp [containsKey, hq]
        rw [h1, h2]
        rfl
      · have h1 : containsKey (q :: rest) k = containsKey rest k := by
          simp [containsKey, hq]
        have h2 : lookupKey (q :: rest) k = lookupKey rest k := by
          unfold lookupKey
          rw [List.find?_cons_of_neg _ (by simp [hq])]
        rw [h1, h2]
        exact ih

theorem lookupKey_eq_none_of_not_contains {d : List (String × PyVal)} {k : String}
    (h : containsKey d k = false) : lookupKey d k = none := by
  rw [containsKey_eq_isSome] at h
  cases hl : lookupKey d k with
  | none => rfl
  | some v => rw [hl] at h; cases h

theorem find?_mapUpdate_self {k : String} (v : PyVal) (d : List (String × PyVal))
    (hc : containsKey d k = true) :
    ((d.map (fun p => if p.1 = k then (k, v) else p)).find? (fun p => p.1 = k))
      = some (k, v) := by
  induction d with
  | nil => cases hc
  | cons q rest ih =>
      rw [List.map_cons]
      by_cases hq : q.1 = k
      · rw [if_pos hq, List.find?_cons_of_pos _ (by simp)]
      · rw [if_neg hq, List.find?_cons_of_neg _ (by simp [hq])]
        apply ih
        simpa [containsKey, hq] using hc

theorem lookupKey_setKey_self (d : List (String × PyVal)) (k : String) (v : PyVal) :
    lookupKey (setKey d k v) k = some v := by
  unfold setKey
  split
  · unfold lookupKey
    rw [find?_mapUpdate_self v d (by assumption)]
    rfl
  · rename_i hc
    rw [lookupKey_append, lookupKey_eq_none_of_not_contains (by simpa using hc)]
    simp [lookupKey, List.find?]

/-! ## Sample configuration used by the witnesses -/

/-- A concrete process-wide configuration used by the witnesses. -/
def sampleSettings : Settings :=
  ⟨"thumbs", "", "pfx_", 85, "jpg", .pyFalsy, "png", false⟩

/-- A concrete thumbnailer used by the witnesses. -/
def sampleThumb : Thumbnailer :=
  Thumbnailer.init sampleSettings none "gallery/photo.png" false

/-- A concrete, permutation-insensitive naming strategy used by the
witnesses. -/
def sampleNamer : Namer :=
  fun _ sf ext _ po => sf ++ "." ++ String.intercalate "_" po ++ "." ++ ext

/-- A concrete engine whose source generation always fails. -/
def sampleEngineNone : Engine :=
  ⟨fun _ _ _ => none, fun i _ => i, fun i f q s => ⟨i, f, q, s⟩⟩

/-- A concrete engine whose source generation always succeeds with a
transparent image and whose processing bumps the image tag. -/
def sampleEngineOk : Engine :=
  ⟨fun _ _ _ => some ⟨7, true⟩, fun i _ => ⟨i.imageId + 1, i.transparent⟩,
    fun i f q s => ⟨i, f, q, s⟩⟩

/-! ## Claims -/

/-- C8: option normalization merges the caller's raw options over the
thumbnailer's defaults with the raw options winning on conflict:
`get_options` writes the thumbnailer's configured quality into the
result only when the caller's options contain no `quality` key, and a
caller-supplied `quality` value is never overwritten. -/
theorem claim_C8_options_merge (self : Thumbnailer) (d : List (String × PyVal))
    (opts : ThumbnailOptions) (h : self.get_options (.raw d) = .ok opts) :
    (∀ v, lookupKey d "quality" = some v → lookupKey opts.entries "quality" = some v)
    ∧ (lookupKey d "quality" = none →
        lookupKey opts.entries "quality" = some (.pyInt self.thumbnail_quality)) := by
  rw [get_options_raw_eq] at h
  have hopts : opts = ⟨normEntries self d⟩ := by
    cases h
    rfl
  subst hopts
  constructor
  · intro v hv
    have hc : containsKey d "quality" = true := by
      rw [containsKey_eq_isSome, hv]
      rfl
    show lookupKey (normEntries self d) "quality" = some v
    unfold normEntries
    rw [if_pos hc, lookupKey_setDefaultKey_ne d _ (by decide)]
    exact hv
  · intro hv
    have hc : containsKey d "quality" = false := by
      rw [containsKey_eq_isSome, hv]
      rfl
    show lookupKey (normEntries self d) "quality" = some (.pyInt self.thumbnail_quality)
    unfold normEntries
    rw [if_neg (by simp [hc]), lookupKey_setKey_self]

/-- Witness for C8 at concrete inputs: a caller-supplied quality of 60
survives normalization, and without one the thumbnailer's quality 85 is
filled in. -/
theorem claim_C8_options_merge_witness :
    (lookupKey [("quality", PyVal.pyInt 60)] "quality" = some (.pyInt 60)
      ∧ ∀ opts, sampleThumb.get_options (.raw [("quality", PyVal.pyInt 60)]) = .ok opts →
          lookupKey opts.entries "quality" = some (.pyInt 60))
    ∧ (lookupKey [("crop", PyVal.pyBool true)] "quality" = none
      ∧ ∀ opts, sampleThumb.get_options (.raw [("crop", PyVal.pyBool true)]) = .ok opts →
          lookupKey opts.entries "quality" = some (.pyInt sampleThumb.thumbnail_quality)) := by
  refine ⟨⟨rfl, ?w1⟩, rfl, ?w2⟩
  · intro opts h
    exact (claim_C8_options_merge sampleThumb _ opts h).1 (.pyInt 60) rfl
  · intro opts h
    exact (claim_C8_options_merge sampleThumb _ opts h).2 rfl

/-- C9: normalization is idempotent at the facade boundary: an input
that is already a `ThumbnailOptions` instance is returned unchanged by
`get_options` — no thumbnailer quality default is applied — so
normalizing the result of `get_options` again, as `generate_thumbnail`
does when called from `get_thumbnail`, alters nothing. -/
theorem claim_C9_options_idempotent (self : Thumbnailer) :
    (∀ t : ThumbnailOptions, self.get_options (.normalized t) = .ok t)
    ∧ (∀ (arg : OptionsArg) (opts : ThumbnailOptions),
        self.get_options arg = .ok opts →
        self.get_options (.normalized opts) = .ok opts) := by
  exact ⟨fun _ => rfl, fun _ _ _ => rfl⟩

/-- Witness for C9 at a concrete normalized option set. -/
theorem claim_C9_options_idempotent_witness :
    sampleThumb.get_options
        (.normalized ⟨[("size", PyVal.pyTuple [.pyInt 10, .pyInt 10])]⟩)
      = .ok ⟨[("size", PyVal.pyTuple [.pyInt 10, .pyInt 10])]⟩
    ∧ ∀ opts,
        sampleThumb.get_options (.raw [("size", PyVal.pyTuple [.pyInt 10, .pyInt 10])])
          = .ok opts →
        sampleThumb.get_options (.normalized opts) = .ok opts := by
  exact ⟨(claim_C9_options_idempotent sampleThumb).1 _,
    fun opts h => (claim_C9_options_idempotent sampleThumb).2 _ opts h⟩

/-- C5: alias lookup through `Thumbnailer.__getitem__` raises
`KeyError(alias)` when resolution against the thumbnailer's target
yields no (or an empty) option set — generating nothing, for any
engine — and otherwise tags the resolved options with the alias name
under the `ALIAS` key and delegates to `get_thumbnail` in silent
mode. -/
theorem claim_C5_getitem (self : Thumbnailer) (e : Engine) (namer : Namer)
    (ag : AliasGet) (aliasName : String) :
    ((ag aliasName self.alias_target = none ∨ ag aliasName self.alias_target = some []) →
        self.getitem e namer ag aliasName = .error (.keyError aliasName))
    ∧ (∀ options, ag aliasName self.alias_target = some options → options ≠ [] →
        self.getitem e namer ag aliasName
          = self.get_thumbnail e namer
              (.raw (setKey options "ALIAS" (.pyStr aliasName))) true none true) := by
  constructor
  · rintro (h | h) <;> simp [Thumbnailer.getitem, h]
  · intro options h hne
    simp [Thumbnailer.getitem, h, hne]

/-- Witness for C5: a miss on the empty registry raises the KeyError,
and a hit on a one-alias registry delegates with the ALIAS tag set. -/
theorem claim_C5_getitem_witness :
    (sampleThumb.getitem sampleEngineOk sampleNamer (fun _ _ => none) "small"
        = .error (.keyError "small"))
    ∧ (sampleThumb.getitem sampleEngineOk sampleNamer
          (fun _ _ => some [("size", PyVal.pyTuple [.pyInt 10, .pyInt 10])]) "small"
        = sampleThumb.get_thumbnail sampleEngineOk sampleNamer
            (.raw (setKey [("size", PyVal.pyTuple [.pyInt 10, .pyInt 10])] "ALIAS"
              (.pyStr "small"))) true none true) := by
  constructor
  · exact (claim_C5_getitem sampleThumb sampleEngineOk sampleNamer (fun _ _ => none)
      "small").1 (Or.inl rfl)
  · exact (claim_C5_getitem sampleThumb sampleEngineOk sampleNamer
      (fun _ _ => some [("size", PyVal.pyTuple [.pyInt 10, .pyInt 10])]) "small").2
      _ rfl (by decide)

/-- A concrete thumbnailer with a distinct name, used to exhibit an
`easy_thumbnails_thumbnailer` attribute value different from its
holder. -/
def otherThumb : Thumbnailer :=
  Thumbnailer.init sampleSettings none "attr.jpg" false

/-- C10 counterexample: `get_thumbnailer` does not return its argument
unchanged when the argument exposes an `easy_thumbnails_thumbnailer`
attribute — it returns the attribute's value (here `otherThumb`, not
the `Thumbnailer` argument `sampleThumb`); and a (empty) string
argument does not always build a named `Thumbnailer` — the empty string
falls through to the relative-name check and raises `ValueError`. -/
theorem claim_C10_cex :
    (get_thumbnailer sampleSettings (.thumb sampleThumb (some otherThumb)) none
        = .ok otherThumb
      ∧ otherThumb ≠ sampleThumb)
    ∧ get_thumbnailer sampleSettings (.str "") none
        = .error (.valueError gtValueErrorMsg) := by
  exact ⟨⟨rfl, by decide⟩, rfl⟩

/-- C10 (amended): `get_thumbnailer` returns the value of the
`easy_thumbnails_thumbnailer` attribute when the argument exposes one
(this check precedes the `Thumbnailer` instance check); it returns the
argument unchanged when it is a `Thumbnailer` without that attribute;
for a non-empty string argument it builds a named `Thumbnailer` whose
name is that string and whose `remote_source` flag is `False`, while an
empty string raises `ValueError`; for any other non-null file-like
argument a non-empty `relative_name` must be supplied — otherwise it
raises `ValueError` — and the resulting `Thumbnailer`'s `remote_source`
flag is `True`. -/
theorem claim_C10_get_thumbnailer (settings : Settings) :
    (∀ t attr rn, get_thumbnailer settings (.thumb t (some attr)) rn = .ok attr)
    ∧ (∀ t rn, get_thumbnailer settings (.thumb t none) rn = .ok t)
    ∧ (∀ attr rn, get_thumbnailer settings (.objWithAttr attr) rn = .ok attr)
    ∧ (∀ s rn, s ≠ "" →
        get_thumbnailer settings (.str s) rn
            = .ok (Thumbnailer.init settings none s false)
          ∧ (Thumbnailer.init settings none s false).name = s
          ∧ (Thumbnailer.init settings none s false).remote_source = false)
    ∧ (∀ rn, get_thumbnailer settings (.str "") rn
        = .error (.valueError gtValueErrorMsg))
    ∧ (∀ fid,
        get_thumbnailer settings (.fileLike fid) none
            = .error (.valueError gtValueErrorMsg)
          ∧ get_thumbnailer settings (.fileLike fid) (some "")
            = .error (.valueError gtValueErrorMsg))
    ∧ (∀ fid r, r ≠ "" →
        get_thumbnailer settings (.fileLike fid) (some r)
            = .ok (Thumbnailer.init settings (some fid) r true)
          ∧ (Thumbnailer.init settings (some fid) r true).name = r
          ∧ (Thumbnailer.init settings (some fid) r true).remote_source = true) := by
  refine ⟨fun t attr rn => rfl, fun t rn => rfl, fun attr rn => rfl, ?s1, fun rn => rfl,
    fun fid => ⟨rfl, rfl⟩, ?s2⟩
  · intro s rn hs
    exact ⟨by simp [get_thumbnailer, hs], rfl, rfl⟩
  · intro fid r hr
    exact ⟨by simp [get_thumbnailer, hr], rfl, rfl⟩

/-- Witness for C10 (amended) at concrete inputs: a non-empty string
builds a named non-remote thumbnailer, and a file-like object with a
non-empty relative name builds a remote one. -/
theorem claim_C10_get_thumbnailer_witness :
    (get_thumbnailer sampleSettings (.str "test.jpg") none
        = .ok (Thumbnailer.init sampleSettings none "test.jpg" false)
      ∧ (Thumbnailer.init sampleSettings none "test.jpg" false).name = "test.jpg"
      ∧ (Thumbnailer.init sampleSettings none "test.jpg" false).remote_source = false)
    ∧ (get_thumbnailer sampleSettings (.fileLike 3) (some "up.png")
        = .ok (Thumbnailer.init sampleSettings (some 3) "up.png" true)
      ∧ (Thumbnailer.init sampleSettings (some 3) "up.png" true).name = "up.png"
      ∧ (Thumbnailer.init sampleSettings (some 3) "up.png" true).remote_source = true) := by
  exact ⟨(claim_C10_get_thumbnailer sampleSettings).2.2.2.1 "test.jpg" none (by decide),
    (claim_C10_get_thumbnailer sampleSettings).2.2.2.2.2.2 3 "up.png" (by decide)⟩

/-- A concrete thumbnailer whose preserve-extensions setting is a
Python set containing the source extension. -/
def setPreserveThumb : Thumbnailer :=
  { sampleThumb with
      thumbnail_preserve_extensions := .pySet ["png"]
      thumbnail_extension := "gif" }

/-- C3 counterexample: the preserve-extensions setting being a set that
contains the source extension does not keep the source extension — the
isinstance check of files.py:212 matches only lists and tuples, so the
chosen extension here is the configured default `gif`, not `png`. -/
theorem claim_C3_cex :
    setPreserveThumb.thumbnail_preserve_extensions = .pySet ["png"]
    ∧ setPreserveThumb.chosen_extension "png" false = "gif"
    ∧ setPreserveThumb.chosen_extension "png" false ≠ "png" := by
  exact ⟨rfl, rfl, by decide⟩

/-- C3 (amended): `get_thumbnail_name` selects the output extension by
strict priority: (a) the source file's extension when the
preserve-extensions setting is `True`, or is a list or tuple (not a
set) that contains the source extension; (b) otherwise the configured
transparency extension when the transparent flag is set; (c) otherwise
the configured default extension; (d) `jpg` when the extension chosen
so far is empty.  In particular, for source extension `png` with
`preserve_extensions=True` the output extension is `png` regardless of
transparency or default settings. -/
theorem claim_C3_extension_policy (self : Thumbnailer) (src_ext : String) (t : Bool) :
    (preserveExtCond self.thumbnail_preserve_extensions src_ext = true ↔
      (self.thumbnail_preserve_extensions = .pyTrue
        ∨ ∃ l, (self.thumbnail_preserve_extensions = .pyList l
            ∨ self.thumbnail_preserve_extensions = .pyTupleP l) ∧ src_ext ∈ l))
    ∧ (preserveExtCond self.thumbnail_preserve_extensions src_ext = true →
        self.chosen_extension src_ext t = (if src_ext = "" then "jpg" else src_ext))
    ∧ (preserveExtCond self.thumbnail_preserve_extensions src_ext = false → t = true →
        self.chosen_extension src_ext t
          = (if self.thumbnail_transparency_extension = "" then "jpg"
             else self.thumbnail_transparency_extension))
    ∧ (preserveExtCond self.thumbnail_preserve_extensions src_ext = false → t = false →
        self.chosen_extension src_ext t
          = (if self.thumbnail_extension = "" then "jpg" else self.thumbnail_extension))
    ∧ (∀ other : Thumbnailer, other.thumbnail_preserve_extensions = .pyTrue →
        other.chosen_extension "png" t = "png") := by
  refine ⟨?hiff, ?hp, ?ht, ?hd, ?hex⟩
  · cases hpe : self.thumbnail_preserve_extensions with
    | pyTrue => simp [preserveExtCond]
    | pyFalsy => simp [preserveExtCond]
    | pyList l =>
        simp only [preserveExtCond]
        constructor
        · intro hc
          exact Or.inr ⟨l, Or.inl rfl, by simpa using hc⟩
        · rintro (h | ⟨l2, (hl | hl), hm⟩)
          · cases h
          · cases hl
            simpa using hm
          · cases hl
    | pyTupleP l =>
        simp only [preserveExtCond]
        constructor
        · intro hc
          exact Or.inr ⟨l, Or.inr rfl, by simpa using hc⟩
        · rintro (h | ⟨l2, (hl | hl), hm⟩)
          · cases h
          · cases hl
          · cases hl
            simpa using hm
    | pySet l =>
        simp only [preserveExtCond]
        constructor
        · intro hc
          cases hc
        · rintro (h | ⟨l2, (hl | hl), hm⟩)
          · cases h
          · cases hl
          · cases hl
  · intro hc
    unfold Thumbnailer.chosen_extension
    rw [hc]
    simp
  · intro hc ht
    unfold Thumbnailer.chosen_extension
    rw [hc, ht]
    simp
  · intro hc ht
    unfold Thumbnailer.chosen_extension
    rw [hc, ht]
    simp
  · intro other hother
    unfold Thumbnailer.chosen_extension
    rw [hother]
    simp [preserveExtCond]

/-- A concrete thumbnailer with the preserve-extensions setting
`True`. -/
def preserveTrueThumb : Thumbnailer :=
  { sampleThumb with thumbnail_preserve_extensions := .pyTrue }

/-- Witness for C3 (amended) at concrete inputs: with
`preserve_extensions=True` the `png` source extension is kept for both
transparency flags, and without preservation a transparent result takes
the transparency extension. -/
theorem claim_C3_extension_policy_witness :
    preserveTrueThumb.chosen_extension "png" false = "png"
    ∧ preserveTrueThumb.chosen_extension "png" true = "png"
    ∧ sampleThumb.chosen_extension "png" true
        = (if sampleThumb.thumbnail_transparency_extension = "" then "jpg"
           else sampleThumb.thumbnail_transparency_extension) := by
  refine ⟨?w1, ?w2, ?w3⟩
  · exact (claim_C3_extension_policy preserveTrueThumb "png" false).2.2.2.2
      preserveTrueThumb rfl
  · exact (claim_C3_extension_policy preserveTrueThumb "png" true).2.2.2.2
      preserveTrueThumb rfl
  · exact (claim_C3_extension_policy sampleThumb "png" true).2.2.1 rfl rfl

/-- Composition of the derived name out of the helper functions, for
any argument whose normalization yields `opts`. -/
theorem get_thumbnail_name_spec (self : Thumbnailer) (namer : Namer) (arg : OptionsArg)
    (transparent : Bool) (opts : ThumbnailOptions)
    (h : self.get_options arg = .ok opts) :
    self.get_thumbnail_name namer arg transparent
      = .ok (ospathJoin
          [ percentFmtOpts self.thumbnail_basedir
              (String.intercalate "_" opts.prepared_options),
            (ospathSplit self.name).1,
            percentFmtOpts self.thumbnail_subdir
              (String.intercalate "_" opts.prepared_options),
            self.thumbnail_pref
              ++ namer self (ospathSplit self.name).2
                  (self.chosen_extension
                    (((ospathSplitext (ospathSplit self.name).2).2.drop 1).toLower)
                    transparent)
                  opts opts.prepared_options ]) := by
  unfold Thumbnailer.get_thumbnail_name
  rw [h]

/-- C4: for every option set and source name, `get_thumbnail_name`
returns the path join of the basedir template, the source directory,
the subdir template and the prefixed filename — the templates with
their opts placeholder substituted by the prepared tokens joined with
an underscore, and the filename being the configured prefix string
prepended to the bare filename the naming strategy returns when invoked
with the thumbnailer, the source filename, the chosen extension, the
full option set, and the prepared token sequence. -/
theorem claim_C4_name_structure (self : Thumbnailer) (namer : Namer) (arg : OptionsArg)
    (transparent : Bool) (opts : ThumbnailOptions)
    (h : self.get_options arg = .ok opts) :
    self.get_thumbnail_name namer arg transparent
      = .ok (ospathJoin
          [ percentFmtOpts self.thumbnail_basedir
              (String.intercalate "_" opts.prepared_options),
            (ospathSplit self.name).1,
            percentFmtOpts self.thumbnail_subdir
              (String.intercalate "_" opts.prepared_options),
            self.thumbnail_pref
              ++ namer self (ospathSplit self.name).2
                  (self.chosen_extension
                    (((ospathSplitext (ospathSplit self.name).2).2.drop 1).toLower)
                    transparent)
                  opts opts.prepared_options ]) :=
  get_thumbnail_name_spec self namer arg transparent opts h

/-- Witness for C4 at a concrete thumbnailer, option dict and naming
strategy. -/
theorem claim_C4_name_structure_witness :
    ∃ opts, sampleThumb.get_options (.raw [("crop", PyVal.pyBool true)]) = .ok opts
      ∧ sampleThumb.get_thumbnail_name sampleNamer (.raw [("crop", PyVal.pyBool true)]) false
          = .ok (ospathJoin
              [ percentFmtOpts sampleThumb.thumbnail_basedir
                  (String.intercalate "_" opts.prepared_options),
                (ospathSplit sampleThumb.name).1,
                percentFmtOpts sampleThumb.thumbnail_subdir
                  (String.intercalate "_" opts.prepared_options),
                sampleThumb.thumbnail_pref
                  ++ sampleNamer sampleThumb (ospathSplit sampleThumb.name).2
                      (sampleThumb.chosen_extension
                        (((ospathSplitext (ospathSplit sampleThumb.name).2).2.drop 1).toLower)
                        false)
                      opts opts.prepared_options ]) := by
  refine ⟨_, rfl, ?w⟩
  exact claim_C4_name_structure sampleThumb sampleNamer (.raw [("crop", PyVal.pyBool true)])
    false _ rfl

/-- C2: `generate_thumbnail` fails with the size sanity error exactly
when, after attempted numeric coercion of each dimension of the size
value (non-coercible dimensions skipped), the maximum across the
dimensions is 0 or the minimum is below 0; the check happens before any
source generator is consulted (the outcome is the same for every
engine) and the raised error carries the offending size pair in its
message. -/
theorem claim_C2_size_check (self : Thumbnailer) (namer : Namer) (silent : Bool)
    (d : List (String × PyVal)) (a b : PyScalar)
    (hsize : lookupKey d "size" = some (.pyTuple [a, b])) :
    (∀ e : Engine, sizeInvalid [a, b] →
        self.generate_thumbnail e namer (.raw d) silent
          = .error (.easyThumbnailsError (sizeErrorMsg a b)))
    ∧ (∀ e : Engine, ¬ sizeInvalid [a, b] → ∀ m,
        self.generate_thumbnail e namer (.raw d) silent
          ≠ .error (.easyThumbnailsError m)) := by
  have hsize2 : lookupKey (normEntries self d) "size" = some (.pyTuple [a, b]) := by
    rw [lookupKey_normEntries_ne self d (by decide) (by decide)]
    exact hsize
  constructor
  · intro e hinv
    unfold sizeInvalid at hinv
    simp only [Thumbnailer.generate_thumbnail, get_options_raw_eq, hsize2]
    rw [if_pos hinv]
  · intro e hinv m
    unfold sizeInvalid at hinv
    simp only [Thumbnailer.generate_thumbnail, get_options_raw_eq, hsize2]
    rw [if_neg hinv]
    cases hg : e.generate_source_image self.file ⟨normEntries self d⟩ silent with
    | none => simp
    | some img =>
        have hspec := get_thumbnail_name_spec self namer
          (.normalized ⟨normEntries self d⟩)
          (is_transparent (e.process_image img ⟨normEntries self d⟩))
          ⟨normEntries self d⟩ rfl
        cases hq : lookupKey (normEntries self d) "quality" with
        | none => simp [hspec, hq]
        | some q =>
            cases hs : lookupKey (normEntries self d) "subsampling" with
            | none => simp [hspec, hq, hs]
            | some s => simp [hspec, hq, hs]

/-- Witness for C2 at the four concrete sizes of the spec: `(0,0)` and
`(-10,50)` are rejected with the size error carrying the pair,
`(0,50)` and `(50,None)` never produce that error. -/
theorem claim_C2_size_check_witness :
    (sampleThumb.generate_thumbnail sampleEngineOk sampleNamer
        (.raw [("size", PyVal.pyTuple [.pyInt 0, .pyInt 0])]) false
      = .error (.easyThumbnailsError "The source image has an invalid size (0x0)"))
    ∧ (sampleThumb.generate_thumbnail sampleEngineOk sampleNamer
        (.raw [("size", PyVal.pyTuple [.pyInt (-10), .pyInt 50])]) false
      = .error (.easyThumbnailsError "The source image has an invalid size (-10x50)"))
    ∧ (∀ m, sampleThumb.generate_thumbnail sampleEngineOk sampleNamer
        (.raw [("size", PyVal.pyTuple [.pyInt 0, .pyInt 50])]) false
      ≠ .error (.easyThumbnailsError m))
    ∧ (∀ m, sampleThumb.generate_thumbnail sampleEngineOk sampleNamer
        (.raw [("size", PyVal.pyTuple [.pyInt 50, .pyNone])]) false
      ≠ .error (.easyThumbnailsError m)) := by
  refine ⟨?w1, ?w2, ?w3, ?w4⟩
  · exact (claim_C2_size_check sampleThumb sampleNamer false
      [("size", PyVal.pyTuple [.pyInt 0, .pyInt 0])] (.pyInt 0) (.pyInt 0) rfl).1
      sampleEngineOk (by decide)
  · exact (claim_C2_size_check sampleThumb sampleNamer false
      [("size", PyVal.pyTuple [.pyInt (-10), .pyInt 50])] (.pyInt (-10)) (.pyInt 50) rfl).1
      sampleEngineOk (by decide)
  · exact (claim_C2_size_check sampleThumb sampleNamer false
      [("size", PyVal.pyTuple [.pyInt 0, .pyInt 50])] (.pyInt 0) (.pyInt 50) rfl).2
      sampleEngineOk (by decide)
  · exact (claim_C2_size_check sampleThumb sampleNamer false
      [("size", PyVal.pyTuple [.pyInt 50, .pyNone])] (.pyInt 50) .pyNone rfl).2
      sampleEngineOk (by decide)

/-- C6: when the size check has passed and source generation yields no
image, `generate_thumbnail` fails with `InvalidImageFormatError` naming
the source, whatever the processor chain, the encoder and the naming
strategy would have done — none of them is reached. -/
theorem claim_C6_no_source (self : Thumbnailer) (namer : Namer) (silent : Bool)
    (arg : OptionsArg) (opts : ThumbnailOptions) (a b : PyScalar)
    (hopts : self.get_options arg = .ok opts)
    (hsize : lookupKey opts.entries "size" = some (.pyTuple [a, b]))
    (hvalid : ¬ sizeInvalid [a, b]) :
    ∀ (gsi : Option Nat → ThumbnailOptions → Bool → Option Image)
      (pim : Image → ThumbnailOptions → Image)
      (spi : Image → String → PyVal → PyVal → ThumbnailFile),
      gsi self.file opts silent = none →
      self.generate_thumbnail ⟨gsi, pim, spi⟩ namer arg silent
        = .error (.invalidImageFormatError
            ("The source file does not appear to be an image: '" ++ self.name ++ "'")) := by
  intro gsi pim spi hgen
  unfold sizeInvalid at hvalid
  simp only [Thumbnailer.generate_thumbnail, hopts, hsize]
  rw [if_neg hvalid]
  simp only [hgen]

/-- Witness for C6 at a concrete run: the always-failing engine on a
valid size yields the format error naming the source. -/
theorem claim_C6_no_source_witness :
    ∃ opts, sampleThumb.get_options (.raw [("size", PyVal.pyTuple [.pyInt 100, .pyInt 50])])
        = .ok opts
      ∧ sampleThumb.generate_thumbnail sampleEngineNone sampleNamer
          (.raw [("size", PyVal.pyTuple [.pyInt 100, .pyInt 50])]) false
        = .error (.invalidImageFormatError
            ("The source file does not appear to be an image: '"
              ++ sampleThumb.name ++ "'")) := by
  refine ⟨_, rfl, ?w⟩
  exact claim_C6_no_source sampleThumb sampleNamer false
    (.raw [("size", PyVal.pyTuple [.pyInt 100, .pyInt 50])]) _ (.pyInt 100) (.pyInt 50)
    rfl (by decide) (by decide) _ _ _ rfl

/-- The facade equation behind C7: `get_thumbnail` returns exactly what
`generate_thumbnail` returns, for every value of `save` and
`generate`. -/
theorem get_thumbnail_eq_generate (self : Thumbnailer) (e : Engine) (namer : Namer)
    (arg : OptionsArg) (save : Bool) (generate : Option Bool) (silent : Bool) :
    self.get_thumbnail e namer arg save generate silent
      = self.generate_thumbnail e namer arg silent := by
  unfold Thumbnailer.get_thumbnail
  cases h : self.get_options arg with
  | error err =>
      unfold Thumbnailer.generate_thumbnail
      rw [h]
  | ok opts =>
      show self.generate_thumbnail e namer (.normalized opts) silent = _
      unfold Thumbnailer.generate_thumbnail
      rw [h]
      rfl

/-- The success-path shape of `generate_thumbnail`: with a valid size,
a generated image and present quality and subsampling keys, the result is
the encoded processed image under the name derived with the processed
image's transparency flag. -/
theorem generate_thumbnail_ok (self : Thumbnailer) (e : Engine) (namer : Namer)
    (arg : OptionsArg) (silent : Bool) (opts : ThumbnailOptions) (a b : PyScalar)
    (img : Image) (q s : PyVal)
    (hopts : self.get_options arg = .ok opts)
    (hsize : lookupKey opts.entries "size" = some (.pyTuple [a, b]))
    (hvalid : ¬ sizeInvalid [a, b])
    (hgen : e.generate_source_image self.file opts silent = some img)
    (hq : lookupKey opts.entries "quality" = some q)
    (hs : lookupKey opts.entries "subsampling" = some s) :
    ∃ fn, self.get_thumbnail_name namer (.normalized opts)
        (is_transparent (e.process_image img opts)) = .ok fn
      ∧ self.generate_thumbnail e namer arg silent
          = .ok (e.save_pil_image (e.process_image img opts) fn q s) := by
  refine ⟨_, get_thumbnail_name_spec self namer (.normalized opts)
    (is_transparent (e.process_image img opts)) opts rfl, ?w⟩
  unfold sizeInvalid at hvalid
  simp only [Thumbnailer.generate_thumbnail, hopts, hsize]
  rw [if_neg hvalid]
  simp only [hgen]
  rw [get_thumbnail_name_spec self namer (.normalized opts)
    (is_transparent (e.process_image img opts)) opts rfl]
  simp only [hq, hs]

/-- C7: `get_thumbnail` normalizes the options, runs the pipeline and
returns exactly the freshly generated artifact of
`generate_thumbnail` — its `save` and `generate` parameters never
change the result and no cache is consulted — and on the success path
the filename is derived with the processed (post-processor-chain)
image's transparency flag. -/
theorem claim_C7_get_thumbnail (self : Thumbnailer) (e : Engine) (namer : Namer)
    (arg : OptionsArg) (save : Bool) (generate : Option Bool) (silent : Bool) :
    self.get_thumbnail e namer arg save generate silent
      = self.generate_thumbnail e namer arg silent
    ∧ (∀ (opts : ThumbnailOptions) (a b : PyScalar) (img : Image) (q s : PyVal),
        self.get_options arg = .ok opts →
        lookupKey opts.entries "size" = some (.pyTuple [a, b]) →
        ¬ sizeInvalid [a, b] →
        e.generate_source_image self.file opts silent = some img →
        lookupKey opts.entries "quality" = some q →
        lookupKey opts.entries "subsampling" = some s →
        ∃ fn, self.get_thumbnail_name namer (.normalized opts)
            (is_transparent (e.process_image img opts)) = .ok fn
          ∧ self.get_thumbnail e namer arg save generate silent
              = .ok (e.save_pil_image (e.process_image img opts) fn q s)) := by
  constructor
  · exact get_thumbnail_eq_generate self e namer arg save generate silent
  · intro opts a b img q s hopts hsize hvalid hgen hq hs
    obtain ⟨fn, hfn, hres⟩ := generate_thumbnail_ok self e namer arg silent opts a b img
      q s hopts hsize hvalid hgen hq hs
    refine ⟨fn, hfn, ?w⟩
    rw [get_thumbnail_eq_generate self e namer arg save generate silent]
    exact hres

/-- Witness for C7 at a concrete successful run with the
always-succeeding engine. -/
theorem claim_C7_get_thumbnail_witness :
    sampleThumb.get_thumbnail sampleEngineOk sampleNamer
        (.raw [("size", PyVal.pyTuple [.pyInt 100, .pyInt 50])]) true none false
      = sampleThumb.generate_thumbnail sampleEngineOk sampleNamer
          (.raw [("size", PyVal.pyTuple [.pyInt 100, .pyInt 50])]) false
    ∧ ∃ opts, sampleThumb.get_options (.raw [("size", PyVal.pyTuple [.pyInt 100, .pyInt 50])])
        = .ok opts
      ∧ ∃ fn, sampleThumb.get_thumbnail_name sampleNamer (.normalized opts)
          (is_transparent (sampleEngineOk.process_image ⟨7, true⟩ opts)) = .ok fn
        ∧ sampleThumb.get_thumbnail sampleEngineOk sampleNamer
            (.raw [("size", PyVal.pyTuple [.pyInt 100, .pyInt 50])]) true none false
          = .ok (sampleEngineOk.save_pil_image
              (sampleEngineOk.process_image ⟨7, true⟩ opts) fn
              (.pyInt sampleThumb.thumbnail_quality) (.pyInt 2)) := by
  refine ⟨(claim_C7_get_thumbnail sampleThumb sampleEngineOk sampleNamer
    (.raw [("size", PyVal.pyTuple [.pyInt 100, .pyInt 50])]) true none false).1, ?w⟩
  refine ⟨_, rfl, ?w2⟩
  exact (claim_C7_get_thumbnail sampleThumb sampleEngineOk sampleNamer
    (.raw [("size", PyVal.pyTuple [.pyInt 100, .pyInt 50])]) true none false).2
    _ (.pyInt 100) (.pyInt 50) ⟨7, true⟩ _ _ rfl rfl (by decide) rfl rfl rfl

/-- C1: for a fixed thumbnailer configuration whose naming strategy is
a function of the logical option set (insensitive to entry order),
`get_thumbnail_name` is a pure function of the source name, the logical
option set, the configuration and the transparency flag: two calls with
logically identical option sets — the same key/value pairs in any
insertion order, keys distinct — produce byte-identical derived
paths. -/
theorem claim_C1_name_determinism (self : Thumbnailer) (namer : Namer)
    (transparent : Bool) (d1 d2 : List (String × PyVal)) (hperm : d1.Perm d2)
    (hnd : (d1.map Prod.fst).Nodup)
    (hnamer : ∀ sf ext po (t1 t2 : ThumbnailOptions), t1.entries.Perm t2.entries →
        namer self sf ext t1 po = namer self sf ext t2 po) :
    self.get_thumbnail_name namer (.raw d1) transparent
      = self.get_thumbnail_name namer (.raw d2) transparent := by
  have hpn : (normEntries self d1).Perm (normEntries self d2) := normEntries_perm self hperm
  have hnd1 : ((normEntries self d1).map Prod.fst).Nodup := normEntries_nodup self hnd
  have hprep : (⟨normEntries self d1⟩ : ThumbnailOptions).prepared_options
      = (⟨normEntries self d2⟩ : ThumbnailOptions).prepared_options :=
    @prepared_options_perm ⟨normEntries self d1⟩ ⟨normEntries self d2⟩ hpn hnd1
  rw [get_thumbnail_name_spec self namer (.raw d1) transparent ⟨normEntries self d1⟩
      (get_options_raw_eq self d1),
    get_thumbnail_name_spec self namer (.raw d2) transparent ⟨normEntries self d2⟩
      (get_options_raw_eq self d2),
    hprep,
    hnamer ((ospathSplit self.name).2)
      (self.chosen_extension
        (((ospathSplitext (ospathSplit self.name).2).2.drop 1).toLower) transparent)
      ((⟨normEntries self d2⟩ : ThumbnailOptions).prepared_options)
      ⟨normEntries self d1⟩ ⟨normEntries self d2⟩ hpn]

/-- Witness for C1: the same two options in both insertion orders give
the same path under the sample configuration and an order-insensitive
naming strategy. -/
theorem claim_C1_name_determinism_witness :
    ([("size", PyVal.pyTuple [.pyInt 100, .pyInt 50]), ("crop", PyVal.pyBool true)] :
        List (String × PyVal)).Perm
      [("crop", PyVal.pyBool true), ("size", PyVal.pyTuple [.pyInt 100, .pyInt 50])]
    ∧ sampleThumb.get_thumbnail_name sampleNamer
        (.raw [("size", PyVal.pyTuple [.pyInt 100, .pyInt 50]),
          ("crop", PyVal.pyBool true)]) false
      = sampleThumb.get_thumbnail_name sampleNamer
          (.raw [("crop", PyVal.pyBool true),
            ("size", PyVal.pyTuple [.pyInt 100, .pyInt 50])]) false := by
  refine ⟨by decide, ?w⟩
  exact claim_C1_name_determinism sampleThumb sampleNamer false _ _ (by decide) (by decide)
    (fun sf ext po t1 t2 h => rfl)

end EasyThumbnails
